import Mathlib

/-!
Verification of the session-recording / transcription / summarization pipeline.

Shallow embedding of the pipeline core:
  * src/bot/bot.py          — chunk_text, split_discord, the map/reduce summarization
                              inside finished_callback, stream_ollama; the HTTP layer
                              is an oracle `String → Except String HttpResponse` whose
                              error side is a RAISED exception only (requests.post
                              does not raise on a non-200 status)
  * src/transcriber/app.py  — the /transcribe endpoint: session-id validation,
                              extract_plain_text, the 200000-character response cap
  * src/bot/audio_writer.py — AudioWriter.write / AudioWriter.close_all

Python strings are modelled as Lean String (a wrapper around List Char); Python
slicing / len operate on characters, matching the List Char representation.
Fallible external calls (HTTP requests, subprocess invocations, file closes)
are modelled as explicit oracles returning Except / Option values.
-/

namespace Craig

/-! ## Python-style helpers -/

/-- Python `range(start, stop, step)` for `step > 0`; CPython computes the
element count as `(stop - start + step - 1) // step` (clamped at 0, which Nat
subtraction gives for free). -/
def pyRange (start stop step : Nat) : List Nat :=
  (List.range ((stop - start + step - 1) / step)).map (fun k => start + k * step)

/-- Python string slice `s[i:j]` (by characters, on the underlying char list). -/
def pySlice (l : List Char) (i j : Nat) : List Char :=
  (l.drop i).take (j - i)

/-! ## src/bot/bot.py — chunk_text (line 73-74)

    def chunk_text(t: str, n: int):
        return [t[i:i + n] for i in range(0, len(t), n)]
-/

/-- `chunk_text` from src/bot/bot.py: slice the transcript on a fixed
character budget. -/
def chunk_text (t : String) (n : Nat) : List String :=
  (pyRange 0 t.length n).map (fun i => String.mk (pySlice t.data i (i + n)))

/-- Recursive reformulation of the slicing loop of `chunk_text`, used to reason
by induction: peel off `take n`, recurse on `drop n`. -/
def chunksOf : Nat → List Char → List (List Char)
  | _, [] => []
  | 0, _ :: _ => []
  | n + 1, c :: cs => ((c :: cs).take (n + 1)) :: chunksOf (n + 1) ((c :: cs).drop (n + 1))
termination_by _ l => l.length
decreasing_by simp [List.length_drop]; omega

/-! ## src/bot/bot.py — split_discord (lines 47-58)

    def split_discord(text: str, limit: int):
        parts, buf = [], []
        count = 0
        for line in text.splitlines():
            if count + len(line) + 1 > limit:
                parts.append("\n".join(buf))
                buf, count = [], 0
            buf.append(line)
            count += len(line) + 1
        if buf:
            parts.append("\n".join(buf))
        return parts
-/

/-- The single-character line boundaries recognised by Python `str.splitlines`
(besides the two-character sequence "\r\n", handled in `pySplitlinesAux`). -/
def isPyLineBreak (c : Char) : Bool :=
  c = '\n' || c = '\r' || c = '\x0b' || c = '\x0c' ||
  c = '\x1c' || c = '\x1d' || c = '\x1e' || c = '\x85' ||
  c = '\u2028' || c = '\u2029'

/-- Python `str.splitlines`: split at line boundaries, which are consumed and
never produce a trailing empty line. `acc` is the current line, reversed. -/
def pySplitlinesAux : List Char → List Char → List (List Char)
  | [], acc => if acc.isEmpty then [] else [acc.reverse]
  | [c], acc => if isPyLineBreak c then [acc.reverse] else [(c :: acc).reverse]
  | c :: c2 :: rest, acc =>
    if c = '\r' then
      if c2 = '\n' then acc.reverse :: pySplitlinesAux rest []
      else acc.reverse :: pySplitlinesAux (c2 :: rest) []
    else if isPyLineBreak c then acc.reverse :: pySplitlinesAux (c2 :: rest) []
    else pySplitlinesAux (c2 :: rest) (c :: acc)

def pySplitlines (s : String) : List String :=
  (pySplitlinesAux s.data []).map String.mk

/-- One iteration of the `for line in text.splitlines()` loop of
`split_discord`: state is (parts, buf, count). -/
def splitDiscordStep (limit : Nat) (st : List String × List String × Nat) (line : String) :
    List String × List String × Nat :=
  let st :=
    if limit < st.2.2 + line.length + 1 then
      (st.1 ++ [String.intercalate "\n" st.2.1], ([] : List String), 0)
    else st
  (st.1, st.2.1 ++ [line], st.2.2 + line.length + 1)

/-- `split_discord` from src/bot/bot.py. -/
def split_discord (text : String) (limit : Nat) : List String :=
  let fin := (pySplitlines text).foldl (splitDiscordStep limit) ([], [], 0)
  if fin.2.1.isEmpty then fin.1 else fin.1 ++ [String.intercalate "\n" fin.2.1]

/-- Modelled from the words of the spec for the publish splitter (§6 of the spec,
quoted in the claim): walk the text line by line, accumulating lines into the
current part while the running character count (one separator counted per
line) stays at or under the limit; once adding a line would exceed the limit,
flush the accumulated part and start a new one with that line. Used as the
reference algorithm that `split_discord` is compared against. -/
def greedyLineSplit (limit : Nat) : List String → List String → Nat → List String
  | [], buf, _ => if buf.isEmpty then [] else [String.intercalate "\n" buf]
  | line :: ls, buf, count =>
    if count + line.length + 1 ≤ limit then
      greedyLineSplit limit ls (buf ++ [line]) (count + line.length + 1)
    else
      String.intercalate "\n" buf :: greedyLineSplit limit ls [line] (line.length + 1)

/-! ## src/bot/bot.py — the map/reduce summarization in finished_callback
(lines 491-532) and stream_ollama.

The HTTP layer (requests.post to {OLLAMA_HOST}/api/generate) is modelled as
an oracle `post : String → Except String HttpResponse` mapping the prompt
either to the message of a RAISED exception (connection error or timeout —
requests.post does not raise on a non-200 status, and the loop never checks
the status) or to the returned response: its status code, and its body as
the per-line outcomes that stream_ollama extracts. -/

/-- The response of one requests.post call: the HTTP status code (which the
summarization code never inspects) and the body as seen by stream_ollama,
one entry per non-empty line of iter_lines: `some s` when the line parses
as JSON carrying a "response" field with value s, `none` when it fails to
parse or lacks the field (such lines are skipped, not fatal). -/
structure HttpResponse where
  status : Nat
  fragments : List (Option String)
deriving DecidableEq

/-- stream_ollama from src/bot/bot.py (lines 60-71): concatenate the
"response" fields of the parseable body lines in arrival order, skipping the
rest. The status code is never consulted. -/
def stream_ollama (resp : HttpResponse) : String :=
  String.join (resp.fragments.filterMap id)

/-- The per-chunk prompt built in finished_callback:
f"{recap_prompt}\n\n[TRANSCRIPT CHUNK {i}/{len(chunks)}]\n{chunk}\n\nReturn only the requested sections." -/
def chunkPrompt (recapPrompt : String) (i total : Nat) (chunk : String) : String :=
  recapPrompt ++ "\n\n[TRANSCRIPT CHUNK " ++ toString i ++ "/" ++ toString total ++ "]\n"
    ++ chunk ++ "\n\nReturn only the requested sections."

/-- Python `enumerate(l, start)`. -/
def pyEnumerate (start : Nat) (l : List α) : List (Nat × α) :=
  l.enum.map (fun p => (p.1 + start, p.2))

/-- One iteration of the chunk-summarization loop: when requests.post
returns (whatever the status code — it is not checked), append the streamed
response text; only when it RAISES append the placeholder
f"[Chunk {i} summarization failed: {e}]". `p` is the `enumerate` pair. -/
def mapChunk (post : String → Except String HttpResponse) (recapPrompt : String) (total : Nat)
    (p : Nat × String) : String :=
  match post (chunkPrompt recapPrompt p.1 total p.2) with
  | .ok resp => stream_ollama resp
  | .error e => "[Chunk " ++ toString p.1 ++ " summarization failed: " ++ e ++ "]"

/-- The Map phase of finished_callback: `for i, chunk in enumerate(chunks, 1)`
building `outlines`. -/
def mapPhase (post : String → Except String HttpResponse) (recapPrompt : String)
    (chunks : List String) : List String :=
  (pyEnumerate 1 chunks).map (mapChunk post recapPrompt chunks.length)

/-- The fixed instruction prefix of the merge prompt in finished_callback. -/
def mergeInstruction : String :=
  "Combine the following chunked notes into a single well-structured session recap "
    ++ "with the same sections, removing duplicates and keeping the best details:\n\n"

/-- The prompt of the merge request: instruction ++ "\n\n".join(outlines). -/
def mergePrompt (outlines : List String) : String :=
  mergeInstruction ++ String.intercalate "\n\n" outlines

/-- The Reduce phase of finished_callback: one merge request; on a raised
exception the recap is the literal placeholder
f"[Merge step failed contacting LLM at {OLLAMA_HOST}: {e}]". -/
def reducePhase (post : String → Except String HttpResponse) (host : String)
    (outlines : List String) : String :=
  match post (mergePrompt outlines) with
  | .ok resp => stream_ollama resp
  | .error e => "[Merge step failed contacting LLM at " ++ host ++ ": " ++ e ++ "]"

/-- The whole summarization part of finished_callback: chunk the transcript
at 12000 characters, summarize each chunk, merge. Total: never raises. -/
def summarize (post : String → Except String HttpResponse) (host recapPrompt transcript : String) :
    String :=
  reducePhase post host (mapPhase post recapPrompt (chunk_text transcript 12000))

/-! ## src/transcriber/app.py — the /transcribe endpoint -/

/-- The codepoint ranges (inclusive) matched by the regex class backslash-d
in CPython for str patterns: every Unicode decimal digit (category Nd, runs
of ten consecutive codepoints per script), enumerated from the Unicode
database CPython 3.11 ships. -/
def pyDigitRanges : List (Nat × Nat) :=
  [(48, 57), (1632, 1641), (1776, 1785), (1984, 1993), (2406, 2415), (2534, 2543), (2662, 2671), (2790, 2799), (2918, 2927), (3046, 3055), (3174, 3183), (3302, 3311), (3430, 3439), (3558, 3567), (3664, 3673), (3792, 3801), (3872, 3881), (4160, 4169), (4240, 4249), (6112, 6121), (6160, 6169), (6470, 6479), (6608, 6617), (6784, 6793), (6800, 6809), (6992, 7001), (7088, 7097), (7232, 7241), (7248, 7257), (42528, 42537), (43216, 43225), (43264, 43273), (43472, 43481), (43504, 43513), (43600, 43609), (44016, 44025), (65296, 65305), (66720, 66729), (68912, 68921), (69734, 69743), (69872, 69881), (69942, 69951), (70096, 70105), (70384, 70393), (70736, 70745), (70864, 70873), (71248, 71257), (71360, 71369), (71472, 71481), (71904, 71913), (72016, 72025), (72784, 72793), (73040, 73049), (73120, 73129), (92768, 92777), (92864, 92873), (93008, 93017), (120782, 120831), (123200, 123209), (123632, 123641), (125264, 125273), (130032, 130041)]

/-- A character matched by the regex class backslash-d: any Unicode decimal
digit, not only the ASCII 0-9. -/
def isPyDigit (c : Char) : Bool :=
  pyDigitRanges.any (fun r => r.1 ≤ c.toNat && c.toNat ≤ r.2)

/-- The core of the session-id pattern: exactly 8 digits, underscore,
6 digits, with digit meaning Unicode decimal digit as Python backslash-d
does. -/
def sidCore : List Char → Bool
  | [d1, d2, d3, d4, d5, d6, d7, d8, u, t1, t2, t3, t4, t5, t6] =>
    [d1, d2, d3, d4, d5, d6, d7, d8].all isPyDigit && u = '_' &&
      [t1, t2, t3, t4, t5, t6].all isPyDigit
  | _ => false

/-- The check re.match on pattern caret-backslash-d8-underscore-backslash-d6-dollar
from src/transcriber/app.py line 27. Per the Python re docs, the dollar anchor
matches at the end of the string or just before
the newline at the end of the string", so the pattern also accepts the core
followed by one trailing newline. -/
def validSessionId (s : String) : Bool :=
  sidCore s.data || (s.data.getLast? == some '\n' && sidCore s.data.dropLast)

/-- Modelled from the words of the claim: `s` matches ^\d{8}_\d{6}$ exactly,
i.e. `s` is literally 8 digits, an underscore and 6 digits. -/
def sidExactMatch (s : String) : Bool :=
  sidCore s.data

/-- Python str.strip() with no argument removes leading/trailing whitespace;
the ASCII whitespace characters are modelled. -/
def isPySpace (c : Char) : Bool :=
  c = ' ' || c = '\t' || c = '\n' || c = '\r' || c = '\x0b' || c = '\x0c'

def pyStrip (s : String) : String :=
  String.mk (((s.data.dropWhile isPySpace).reverse.dropWhile isPySpace).reverse)

/-- One segment of the WhisperX JSON output: the "speaker" and "text" fields,
each possibly absent (seg.get(...) defaults them to ""). -/
structure Segment where
  speaker : Option String
  text : Option String
deriving DecidableEq

/-- One iteration of the rendering loop of extract_plain_text:
        spk = seg.get("speaker", "")
        txt = seg.get("text", "").strip()
        if spk: lines.append(f"{spk}: {txt}") else: lines.append(txt) -/
def renderSegment (seg : Segment) : String :=
  let spk := seg.speaker.getD ""
  let txt := pyStrip (seg.text.getD "")
  if spk ≠ "" then spk ++ ": " ++ txt else txt

/-- extract_plain_text from src/transcriber/app.py (lines 117-137), applied to
the parsed segments: build `lines` with a loop, then "\n".join(lines). -/
def extract_plain_text (segs : List Segment) : String :=
  String.intercalate "\n"
    (segs.foldl (fun lines seg => lines ++ [renderSegment seg]) [])

/-- Modelled from the words of the claim: render each segment as
"{speaker_label}: {text}" when a speaker label is present, else "{text}",
one segment per line, in segment order. -/
def transcriptClaimRendering (segs : List Segment) : String :=
  String.intercalate "\n"
    (segs.map (fun seg =>
      match seg.speaker with
      | some spk => spk ++ ": " ++ seg.text.getD ""
      | none => seg.text.getD ""))

/-- The amended per-segment rendering: the text field is whitespace-stripped,
and a present-but-empty speaker label is treated like an absent one. -/
def renderSegmentAmended (seg : Segment) : String :=
  match seg.speaker with
  | some spk =>
    if spk = "" then pyStrip (seg.text.getD "")
    else spk ++ ": " ++ pyStrip (seg.text.getD "")
  | none => pyStrip (seg.text.getD "")

/-- Python `s[:n]` (by characters). -/
def pyTake (s : String) (n : Nat) : String :=
  String.mk (s.data.take n)

/-- The error responses raised by the /transcribe endpoint (HTTPException). -/
inductive TranscribeErr where
  | invalidSessionId : TranscribeErr
  | sessionDirNotFound (sid : String) : TranscribeErr
  | noAudioFiles : TranscribeErr
  | audioMergeFailed (msg : String) : TranscribeErr
  | whisperxFailed (msg : String) : TranscribeErr
  | extractFailed (msg : String) : TranscribeErr
deriving DecidableEq

/-- The HTTP status attached to each HTTPException in src/transcriber/app.py. -/
def TranscribeErr.status : TranscribeErr → Nat
  | .invalidSessionId => 400
  | .sessionDirNotFound _ => 404
  | .noAudioFiles => 400
  | .audioMergeFailed _ => 500
  | .whisperxFailed _ => 500
  | .extractFailed _ => 500

/-- The successful JSON response of /transcribe, plus the transcript.txt
artifact written to the session directory just before responding. -/
structure TranscribeOk where
  session_id : String
  transcript_text : String
  transcriptTxtFile : String
deriving DecidableEq

/-- The filesystem / subprocess environment one /transcribe request sees:
whether the session directory exists, the sorted glob of user_*.wav files,
and the outcomes of the external invocations (ffmpeg merge, the WhisperX
steps, and reading/parsing the ASR JSON inside extract_plain_text). -/
structure TranscriberEnv where
  dirExists : Bool
  wavs : List String
  mergeResult : Except String Unit
  whisperxResult : Except String Unit
  asrJson : Except String (List Segment)

/-- The /transcribe endpoint of src/transcriber/app.py (lines 21-84). -/
def transcribe (env : TranscriberEnv) (sid : String) : Except TranscribeErr TranscribeOk :=
  if ¬ validSessionId sid then .error .invalidSessionId
  else if ¬ env.dirExists then .error (.sessionDirNotFound sid)
  else if env.wavs.isEmpty then .error .noAudioFiles
  else
    match env.mergeResult with
    | .error e => .error (.audioMergeFailed e)
    | .ok _ =>
      match env.whisperxResult with
      | .error e => .error (.whisperxFailed e)
      | .ok _ =>
        match env.asrJson with
        | .error e => .error (.extractFailed e)
        | .ok segs =>
          let full := extract_plain_text segs
          .ok { session_id := sid
                transcript_text := pyTake full 200000
                transcriptTxtFile := full }

/-! ## src/bot/audio_writer.py — AudioWriter

The per-participant wave files are modelled as an insertion-ordered
association list from user id to the PCM bytes written so far (a Python dict
preserves insertion order; assigning an existing key keeps its position).
The per-participant locks serialize writes; the model is the single-threaded
sequence of operations. -/

/-- Python dict lookup `d[k]` / membership `k in d`. -/
def getTrack : List (Nat × List Nat) → Nat → Option (List Nat)
  | [], _ => none
  | (k, v) :: rest, uid => if k = uid then some v else getTrack rest uid

/-- Python dict assignment `d[k] = v`: replace in place or append. -/
def setTrack : List (Nat × List Nat) → Nat → List Nat → List (Nat × List Nat)
  | [], uid, v => [(uid, v)]
  | (k, old) :: rest, uid, v =>
    if k = uid then (k, v) :: rest else (k, old) :: setTrack rest uid v

structure AudioWriter where
  files : List (Nat × List Nat)
deriving DecidableEq

/-- AudioWriter.start_track: wave.open in mode wb creates (or truncates) the
track of the participant and registers the fresh handle. -/
def AudioWriter.start_track (w : AudioWriter) (uid : Nat) : AudioWriter :=
  { files := setTrack w.files uid [] }

/-- AudioWriter.write (lines 25-29):
        if user_id not in self.files:
            self.start_track(user_id)
        with self.locks[user_id]:
            self.files[user_id].writeframes(pcm_bytes) -/
def AudioWriter.write (w : AudioWriter) (uid : Nat) (pcm : List Nat) : AudioWriter :=
  let w := if (getTrack w.files uid).isSome then w else w.start_track uid
  { files := setTrack w.files uid ((getTrack w.files uid).getD [] ++ pcm) }

/-- The result of AudioWriter.close_all: which tracks had their wave file
finalized (in iteration order), the propagated exception if a close raised,
and the writer state afterwards. -/
structure CloseOutcome where
  finalized : List Nat
  error : Option String
  writer : AudioWriter
deriving DecidableEq

/-- The `for wf in self.files.values(): wf.close()` loop, with a per-track
failure oracle `closeErr`: returns the uids finalized before the first
exception, and that exception if any. -/
def closeLoop (closeErr : Nat → Option String) :
    List (Nat × List Nat) → List Nat × Option String
  | [] => ([], none)
  | (uid, _) :: rest =>
    match closeErr uid with
    | some e => ([], some e)
    | none =>
      let r := closeLoop closeErr rest
      (uid :: r.1, r.2)

/-- AudioWriter.close_all (lines 31-34): close every file, then clear the
table. An exception from a close propagates out of the loop, so the clear
does not run and the remaining files stay registered. -/
def AudioWriter.close_all (w : AudioWriter) (closeErr : Nat → Option String) : CloseOutcome :=
  match closeLoop closeErr w.files with
  | (fin, some e) => { finalized := fin, error := some e, writer := w }
  | (fin, none) => { finalized := fin, error := none, writer := ⟨[]⟩ }

/-! ## Concrete fixtures used by witness theorems -/

/-- Fixture: an HTTP oracle that raises exactly on the prompt of chunk 1
of 2 and otherwise returns a non-200 response whose body still streams one
fragment. -/
def postW : String → Except String HttpResponse :=
  fun p =>
    if p = chunkPrompt "P" 1 2 "c1" then .error "boom"
    else .ok { status := 500, fragments := [some "fine"] }

/-- Fixture: an HTTP oracle for which every request raises. -/
def postAllFail : String → Except String HttpResponse :=
  fun _ => .error "down"

/-- Fixture: an HTTP oracle that never raises but answers every request with
status 500 and an error body that carries no "response" field — the shape of
an ollama error reply. -/
def post500 : String → Except String HttpResponse :=
  fun _ => .ok { status := 500, fragments := [none] }

/-- Fixture: a close oracle failing exactly on the track of user 1. -/
def closeErrW : Nat → Option String :=
  fun uid => if uid = 1 then some "disk full" else none

/-- Fixture: an environment where every external step succeeds. -/
def envW : TranscriberEnv :=
  { dirExists := true
    wavs := ["user_1.wav"]
    mergeResult := .ok ()
    whisperxResult := .ok ()
    asrJson := .ok [{ speaker := some "A", text := some " hello " }] }

/-- Fixture: an environment whose session directory is missing. -/
def envNoDir : TranscriberEnv :=
  { dirExists := false
    wavs := []
    mergeResult := .ok ()
    whisperxResult := .ok ()
    asrJson := .ok [] }

/-! ## Lemmas -/

lemma pySlice_add (l : List Char) (a s : Nat) : pySlice l a (a + s) = (l.drop a).take s := by
  simp [pySlice]

lemma chunk_slices_eq_chunksOf (m : Nat) :
    ∀ (L : Nat) (l : List Char), l.length ≤ L →
      (pyRange 0 l.length (m + 1)).map (fun i => pySlice l i (i + (m + 1))) =
        chunksOf (m + 1) l := by
  intro L
  induction L with
  | zero =>
    intro l hl
    have hl0 : l = [] := List.eq_nil_of_length_eq_zero (Nat.le_zero.mp hl)
    subst hl0
    have h0 : m / (m + 1) = 0 := Nat.div_eq_of_lt (by omega)
    simp [pyRange, chunksOf, h0]
  | succ L ih =>
    intro l hl
    match l with
    | [] =>
      have h0 : m / (m + 1) = 0 := Nat.div_eq_of_lt (by omega)
      simp [pyRange, chunksOf, h0]
    | c :: cs =>
      have e1 : (c :: cs : List Char).length - 0 + (m + 1) - 1 = cs.length + (m + 1) := by
        simp only [List.length_cons]; omega
      by_cases hsmall : cs.length < m + 1
      · have e2 : (cs.length + (m + 1)) / (m + 1) = 1 :=
          Nat.div_eq_of_lt_le (by omega) (by omega)
        have hdrop : (c :: cs : List Char).drop (m + 1) = [] :=
          List.drop_eq_nil_of_le (by simp only [List.length_cons]; omega)
        simp only [pyRange, e1, e2]
        rw [chunksOf, hdrop]
        simp [pySlice, List.range_succ, chunksOf]
      · have e2 : (cs.length + (m + 1)) / (m + 1) = cs.length / (m + 1) + 1 :=
          Nat.add_div_right _ (by omega)
        have hlen' : ((c :: cs : List Char).drop (m + 1)).length = cs.length - m := by
          simp only [List.length_drop, List.length_cons]; omega
        have e3 : ((c :: cs : List Char).drop (m + 1)).length - 0 + (m + 1) - 1 = cs.length := by
          rw [hlen']; omega
        have ihl := ih ((c :: cs : List Char).drop (m + 1))
          (by rw [hlen']; simp only [List.length_cons] at hl; omega)
        rw [chunksOf, ← ihl]
        simp only [pyRange, e1, e2, e3, List.range_succ_eq_map, List.map_cons, List.map_map]
        congr 1
        · simp [pySlice]
        · apply List.map_congr_left
          intro j _
          simp only [Function.comp]
          rw [pySlice_add, pySlice_add, List.drop_drop]
          congr 2
          simp only [Nat.succ_eq_add_one]
          ring

lemma chunk_text_eq_chunksOf (t : String) (m : Nat) :
    chunk_text t (m + 1) = (chunksOf (m + 1) t.data).map String.mk := by
  obtain ⟨l⟩ := t
  show (pyRange 0 l.length (m + 1)).map
      (fun i => String.mk (pySlice l i (i + (m + 1)))) = _
  rw [← chunk_slices_eq_chunksOf m l.length l le_rfl, List.map_map]
  rfl

lemma chunksOf_join (m : Nat) :
    ∀ (L : Nat) (l : List Char), l.length ≤ L → (chunksOf (m + 1) l).flatten = l := by
  intro L
  induction L with
  | zero =>
    intro l hl
    have hl0 : l = [] := List.eq_nil_of_length_eq_zero (Nat.le_zero.mp hl)
    subst hl0
    simp [chunksOf]
  | succ L ih =>
    intro l hl
    match l with
    | [] => simp [chunksOf]
    | c :: cs =>
      rw [chunksOf]
      simp only [List.flatten_cons]
      rw [ih ((c :: cs : List Char).drop (m + 1))
        (by simp only [List.length_drop, List.length_cons] at *; omega)]
      exact List.take_append_drop (m + 1) (c :: cs)

lemma join_map_mk_aux :
    ∀ (ls : List (List Char)) (a : List Char),
      List.foldl (· ++ ·) (String.mk a) (ls.map String.mk) = String.mk (a ++ ls.flatten) := by
  intro ls
  induction ls with
  | nil => intro a; simp
  | cons h tl ih =>
    intro a
    simp only [List.map_cons, List.foldl_cons, List.flatten_cons]
    have : String.mk a ++ String.mk h = String.mk (a ++ h) := rfl
    rw [this, ih, List.append_assoc]

lemma join_map_mk (ls : List (List Char)) :
    String.join (ls.map String.mk) = String.mk ls.flatten := by
  have := join_map_mk_aux ls []
  simpa [String.join] using this

lemma mk_data (s : String) : String.mk s.data = s := by
  obtain ⟨l⟩ := s
  rfl

/-! ## C1 — chunk_text counts and concatenation -/

/-- C1, counterexample: chunk_text on the empty transcript yields zero chunks,
not at least one as the claim states. -/
theorem chunk_text_empty_counterexample :
    chunk_text "" 12000 = [] ∧ ¬ 1 ≤ (chunk_text "" 12000).length := by
  decide

/-- C1 (amended): for every transcript and every chunk size N > 0, chunk_text
produces exactly ceil(L/N) chunks — which is 0, not 1, when L = 0 — and
concatenating the chunks in index order yields the original transcript. -/
theorem chunk_text_count_and_concat (t : String) (n : Nat) (hn : 0 < n) :
    (chunk_text t n).length = (t.length + n - 1) / n ∧
    String.join (chunk_text t n) = t := by
  obtain ⟨m, rfl⟩ : ∃ m, n = m + 1 := ⟨n - 1, by omega⟩
  constructor
  · simp [chunk_text, pyRange]
  · rw [chunk_text_eq_chunksOf, join_map_mk,
      chunksOf_join m t.data.length t.data le_rfl, mk_data]

/-- C1, witness for `chunk_text_count_and_concat` at transcript "abcde", N = 2. -/
theorem chunk_text_count_and_concat_witness :
    0 < 2 ∧ ((chunk_text "abcde" 2).length = ("abcde".length + 2 - 1) / 2 ∧
      String.join (chunk_text "abcde" 2) = "abcde") :=
  ⟨by decide, chunk_text_count_and_concat "abcde" 2 (by decide)⟩

/-! ## C2 — split_discord follows the line-based algorithm -/

lemma foldl_splitDiscordStep (limit : Nat) :
    ∀ (lines : List String) (parts buf : List String) (count : Nat),
      (let fin := lines.foldl (splitDiscordStep limit) (parts, buf, count)
       if fin.2.1.isEmpty then fin.1 else fin.1 ++ [String.intercalate "\n" fin.2.1]) =
        parts ++ greedyLineSplit limit lines buf count := by
  intro lines
  induction lines with
  | nil =>
    intro parts buf count
    rw [greedyLineSplit]
    by_cases h : buf.isEmpty <;> simp [h]
  | cons line ls ih =>
    intro parts buf count
    rw [greedyLineSplit]
    simp only [List.foldl_cons]
    by_cases h : count + line.length + 1 ≤ limit
    · have hstep : splitDiscordStep limit (parts, buf, count) line =
          (parts, buf ++ [line], count + line.length + 1) := by
        simp only [splitDiscordStep]
        rw [if_neg (by omega)]
      rw [hstep, ih, if_pos h]
    · have hstep : splitDiscordStep limit (parts, buf, count) line =
          (parts ++ [String.intercalate "\n" buf], [line], line.length + 1) := by
        simp only [splitDiscordStep]
        rw [if_pos (by omega)]
        simp
      rw [hstep, ih, if_neg h]
      simp

set_option maxRecDepth 40000 in
/-- C2 (amended): split_discord is exactly the specified line-based greedy
accumulation; and on 3 lines of 1000 characters each under limit 1900 it
returns the three lines as three separate parts, not two parts of
2001 and 1000 characters as the claim asserts. -/
theorem split_discord_follows_line_algorithm :
    (∀ (text : String) (limit : Nat),
        split_discord text limit = greedyLineSplit limit (pySplitlines text) [] 0) ∧
    split_discord
        (String.mk (List.replicate 1000 'a') ++ "\n" ++ String.mk (List.replicate 1000 'b')
          ++ "\n" ++ String.mk (List.replicate 1000 'c')) 1900 =
      [String.mk (List.replicate 1000 'a'), String.mk (List.replicate 1000 'b'),
        String.mk (List.replicate 1000 'c')] := by
  constructor
  · intro text limit
    have h := foldl_splitDiscordStep limit (pySplitlines text) [] [] 0
    simpa [split_discord] using h
  · decide

set_option maxRecDepth 40000 in
/-- C2, counterexample: the worked example of the claim is false — the code
does not return the parts [line1 ++ newline ++ line2, line3] there. -/
theorem split_discord_example_counterexample :
    split_discord
        (String.mk (List.replicate 1000 'a') ++ "\n" ++ String.mk (List.replicate 1000 'b')
          ++ "\n" ++ String.mk (List.replicate 1000 'c')) 1900 ≠
      [String.mk (List.replicate 1000 'a') ++ "\n" ++ String.mk (List.replicate 1000 'b'),
        String.mk (List.replicate 1000 'c')] := by
  decide

/-! ## C3 — per-chunk failure isolation in the Map phase -/

lemma pyEnumerate_getElem (start : Nat) (l : List α) (i : Nat) :
    (pyEnumerate start l)[i]? = l[i]?.map (fun a => (i + start, a)) := by
  simp only [pyEnumerate, List.getElem?_map, List.getElem?_enum, Option.map_map]
  cases h : l[i]? <;> rfl

lemma mapPhase_getElem (post : String → Except String HttpResponse) (recapPrompt : String)
    (chunks : List String) (i : Nat) :
    (mapPhase post recapPrompt chunks)[i]? =
      chunks[i]?.map (fun c => mapChunk post recapPrompt chunks.length (i + 1, c)) := by
  simp only [mapPhase, List.getElem?_map, pyEnumerate_getElem, Option.map_map]
  rfl

lemma mapPhase_length (post : String → Except String HttpResponse) (recapPrompt : String)
    (chunks : List String) :
    (mapPhase post recapPrompt chunks).length = chunks.length := by
  simp [mapPhase, pyEnumerate]

/-- C3, counterexample: a non-200 response does not produce the placeholder.
requests.post does not raise on a non-200 status and the loop never checks
it, so a 500 reply whose error body carries no "response" field lands in the
slot as the empty streamed text, not as any
"[Chunk 1 summarization failed: ...]" string. -/
theorem mapPhase_non200_counterexample :
    post500 (chunkPrompt "P" 1 1 "x") =
      Except.ok { status := 500, fragments := [none] } ∧
    mapPhase post500 "P" ["x"] = [""] ∧
    (mapPhase post500 "P" ["x"])[0]? ≠
      some ("[Chunk " ++ toString 1 ++ " summarization failed: " ++ "HTTP 500" ++ "]") := by
  refine ⟨rfl, by decide, by decide⟩

/-- C3 (amended): the Map phase never aborts and always yields one entry per
chunk in chunk order; when the request for chunk i RAISES (network error or
timeout) with reason e, slot i holds exactly the placeholder
"[Chunk {i} summarization failed: {e}]" and every other chunk is processed
independently; but when the request RETURNS — with any status, 200 or not —
slot i holds the streamed body text (the status is never checked), not the
placeholder. -/
theorem mapPhase_raised_failure_isolation (post : String → Except String HttpResponse)
    (recapPrompt : String) (chunks : List String) (i : Nat)
    (hi : i < chunks.length) :
    (mapPhase post recapPrompt chunks).length = chunks.length ∧
    (∀ e, post (chunkPrompt recapPrompt (i + 1) chunks.length chunks[i]) = .error e →
      (mapPhase post recapPrompt chunks)[i]? =
        some ("[Chunk " ++ toString (i + 1) ++ " summarization failed: " ++ e ++ "]")) ∧
    (∀ resp, post (chunkPrompt recapPrompt (i + 1) chunks.length chunks[i]) = .ok resp →
      (mapPhase post recapPrompt chunks)[i]? = some (stream_ollama resp)) ∧
    ∀ j, j < chunks.length →
      (mapPhase post recapPrompt chunks)[j]? =
        some (mapChunk post recapPrompt chunks.length (j + 1, chunks[j]?.getD "")) := by
  refine ⟨mapPhase_length post recapPrompt chunks, ?_, ?_, ?_⟩
  · intro e hfail
    rw [mapPhase_getElem, List.getElem?_eq_getElem hi]
    simp [mapChunk, hfail]
  · intro resp hok
    rw [mapPhase_getElem, List.getElem?_eq_getElem hi]
    simp [mapChunk, hok]
  · intro j hj
    rw [mapPhase_getElem, List.getElem?_eq_getElem hj]
    simp

/-- C3, witness for `mapPhase_raised_failure_isolation`: two chunks, the
request for the first raises and yields the placeholder, the request for the
second returns status 500 and yields its streamed body instead. -/
theorem mapPhase_raised_failure_isolation_witness :
    postW (chunkPrompt "P" (0 + 1) (["c1", "c2"] : List String).length "c1") =
      Except.error "boom" ∧
    postW (chunkPrompt "P" (1 + 1) (["c1", "c2"] : List String).length "c2") =
      Except.ok { status := 500, fragments := [some "fine"] } ∧
    (mapPhase postW "P" ["c1", "c2"]).length = (["c1", "c2"] : List String).length ∧
    (mapPhase postW "P" ["c1", "c2"])[0]? =
      some ("[Chunk " ++ toString (0 + 1) ++ " summarization failed: " ++ "boom" ++ "]") ∧
    (mapPhase postW "P" ["c1", "c2"])[1]? =
      some (stream_ollama { status := 500, fragments := [some "fine"] }) := by
  have h0 := mapPhase_raised_failure_isolation postW "P" ["c1", "c2"] 0 (by decide)
  have h1 := mapPhase_raised_failure_isolation postW "P" ["c1", "c2"] 1 (by decide)
  exact ⟨by rfl, by rfl, h0.1, h0.2.1 "boom" (by rfl),
    h1.2.2.1 { status := 500, fragments := [some "fine"] } (by rfl)⟩

/-! ## C4 — merge failure containment in the Reduce phase -/

/-- C4: if the final merge request fails with reason e, summarization still
returns (it never raises: it is a total function), and the recap is exactly
the literal placeholder naming the endpoint and the reason. -/
theorem summarize_merge_failure_placeholder (post : String → Except String HttpResponse)
    (host recapPrompt transcript e : String)
    (hfail : post (mergePrompt (mapPhase post recapPrompt (chunk_text transcript 12000))) =
      .error e) :
    summarize post host recapPrompt transcript =
      "[Merge step failed contacting LLM at " ++ host ++ ": " ++ e ++ "]" := by
  simp [summarize, reducePhase, hfail]

/-- C4, witness for `summarize_merge_failure_placeholder`: an endpoint for
which every request fails still produces the placeholder recap string. -/
theorem summarize_merge_failure_placeholder_witness :
    postAllFail (mergePrompt (mapPhase postAllFail "P" (chunk_text "t" 12000))) =
      Except.error "down" ∧
    summarize postAllFail "http://ollama" "P" "t" =
      "[Merge step failed contacting LLM at " ++ "http://ollama" ++ ": " ++ "down" ++ "]" :=
  ⟨rfl, summarize_merge_failure_placeholder postAllFail "http://ollama" "P" "t" "down" rfl⟩

/-! ## C6 — the Reduce input is the index-ordered blank-line join -/

/-- C6: the outline array has one slot per chunk, slot i is determined by
chunk i alone (so completion timing cannot reorder it), and the prompt of the
merge request is exactly the fixed instruction followed by the T results
joined in index order with a blank line ("\n\n") between consecutive results. -/
theorem merge_input_is_index_ordered_join (post : String → Except String HttpResponse)
    (host recapPrompt : String) (chunks : List String) :
    (mapPhase post recapPrompt chunks).length = chunks.length ∧
    (∀ i, i < chunks.length →
        (mapPhase post recapPrompt chunks)[i]? =
          some (mapChunk post recapPrompt chunks.length (i + 1, chunks[i]?.getD ""))) ∧
    mergePrompt (mapPhase post recapPrompt chunks) =
      mergeInstruction ++ String.intercalate "\n\n" (mapPhase post recapPrompt chunks) ∧
    reducePhase post host (mapPhase post recapPrompt chunks) =
      (match post (mergeInstruction ++
          String.intercalate "\n\n" (mapPhase post recapPrompt chunks)) with
       | .ok resp => stream_ollama resp
       | .error e => "[Merge step failed contacting LLM at " ++ host ++ ": " ++ e ++ "]") := by
  refine ⟨mapPhase_length post recapPrompt chunks, ?_, rfl, rfl⟩
  intro i hi
  rw [mapPhase_getElem, List.getElem?_eq_getElem hi]
  simp

/-- C6, witness for `merge_input_is_index_ordered_join` on two concrete
chunks with every request failing. -/
theorem merge_input_is_index_ordered_join_witness :
    (mapPhase postAllFail "P" ["x", "y"]).length = (["x", "y"] : List String).length ∧
    (mapPhase postAllFail "P" ["x", "y"])[1]? =
      some (mapChunk postAllFail "P" (["x", "y"] : List String).length (1 + 1, "y")) ∧
    mergePrompt (mapPhase postAllFail "P" ["x", "y"]) =
      mergeInstruction ++ String.intercalate "\n\n" (mapPhase postAllFail "P" ["x", "y"]) := by
  have h := merge_input_is_index_ordered_join postAllFail "h" "P" ["x", "y"]
  exact ⟨h.1, h.2.1 1 (by decide), h.2.2.1⟩

/-! ## C5 — session-id validation in /transcribe -/

/-- C5, counterexample: a session id that does not match the pattern exactly
(it carries one trailing newline) is nevertheless accepted by the validator —
the dollar anchor of Python re also matches just before a trailing newline —
so /transcribe proceeds to the filesystem check instead of rejecting it as
invalid. -/
theorem sid_trailing_newline_counterexample :
    validSessionId "20240115_093000\n" = true ∧
    sidExactMatch "20240115_093000\n" = false ∧
    transcribe envNoDir "20240115_093000\n" =
      Except.error (TranscribeErr.sessionDirNotFound "20240115_093000\n") := by
  refine ⟨by decide, by decide, ?_⟩
  rfl

/-- C5 (amended): for every request string and every filesystem state, the
endpoint rejects with the invalid-session-id error — before and independent
of any filesystem access — unless the string matches the pattern under
Python re.match semantics: exactly 8 digits, underscore, 6 digits, where a
digit is any Unicode decimal digit (not only ASCII), optionally followed by
one trailing newline. In particular it accepts "20240115_093000" and a
session id written in Arabic-Indic digits, and rejects "../../etc",
"2024-01-15" and the empty string. -/
theorem transcribe_session_id_validation :
    (∀ (env : TranscriberEnv) (sid : String), validSessionId sid = false →
        transcribe env sid = Except.error TranscribeErr.invalidSessionId) ∧
    (∀ s : String, validSessionId s = true ↔
        (sidExactMatch s = true ∨
          (s.data.getLast? = some '\n' ∧ sidExactMatch (String.mk s.data.dropLast) = true))) ∧
    validSessionId "20240115_093000" = true ∧
    validSessionId "\u0660\u0661\u0662\u0663\u0664\u0665\u0666\u0667_\u0660\u0661\u0662\u0663\u0664\u0665" = true ∧
    validSessionId "../../etc" = false ∧
    validSessionId "2024-01-15" = false ∧
    validSessionId "" = false := by
  refine ⟨?_, ?_, by decide, by decide, by decide, by decide, by decide⟩
  · intro env sid h
    simp [transcribe, h]
  · intro s
    show (sidCore s.data || (s.data.getLast? == some '\n' && sidCore s.data.dropLast)) =
        true ↔ _
    rw [Bool.or_eq_true, Bool.and_eq_true, beq_iff_eq]
    exact Iff.rfl.or (and_congr Iff.rfl Iff.rfl)

/-- C5, witness for `transcribe_session_id_validation`: the traversal attempt
"../../etc" is rejected as invalid even in a fully healthy environment. -/
theorem transcribe_session_id_validation_witness :
    validSessionId "../../etc" = false ∧
    transcribe envW "../../etc" = Except.error TranscribeErr.invalidSessionId :=
  ⟨by decide, transcribe_session_id_validation.1 envW "../../etc" (by decide)⟩

/-! ## C7 — the plain-text transcript rendering -/

lemma foldl_append_singleton (f : Segment → String) :
    ∀ (segs : List Segment) (acc : List String),
      segs.foldl (fun lines seg => lines ++ [f seg]) acc = acc ++ segs.map f := by
  intro segs
  induction segs with
  | nil => intro acc; simp
  | cons sg tl ih =>
    intro acc
    simp only [List.foldl_cons, List.map_cons, ih]
    simp

/-- C7, counterexample: a segment whose text has surrounding whitespace is
not rendered verbatim as the claim states — the code strips the text field
(" hi " renders as "hi"), so the claimed rendering differs from the code. -/
theorem extract_plain_text_strip_counterexample :
    extract_plain_text [{ speaker := none, text := some " hi " }] ≠
      transcriptClaimRendering [{ speaker := none, text := some " hi " }] := by
  decide

/-- C7 (amended): the derived transcript renders each segment on its own line
in segment order, as "{speaker_label}: {text}" with the text
whitespace-stripped when a non-empty speaker label is present, and as the
stripped text alone otherwise (an absent or empty speaker field). -/
theorem extract_plain_text_amended_rendering (segs : List Segment) :
    extract_plain_text segs = String.intercalate "\n" (segs.map renderSegmentAmended) := by
  unfold extract_plain_text
  rw [foldl_append_singleton renderSegment segs []]
  simp only [List.nil_append]
  congr 1
  apply List.map_congr_left
  intro seg _
  obtain ⟨spk, txt⟩ := seg
  cases spk with
  | none => simp [renderSegment, renderSegmentAmended]
  | some v =>
    by_cases hv : v = ""
    · subst hv; simp [renderSegment, renderSegmentAmended]
    · simp [renderSegment, renderSegmentAmended, hv]

/-! ## C8 — AudioWriter.write on a participant with no open track -/

lemma getTrack_setTrack_self :
    ∀ (fs : List (Nat × List Nat)) (uid : Nat) (v : List Nat),
      getTrack (setTrack fs uid v) uid = some v := by
  intro fs
  induction fs with
  | nil => intro uid v; simp [setTrack, getTrack]
  | cons p rest ih =>
    intro uid v
    obtain ⟨k, old⟩ := p
    by_cases hk : k = uid
    · subst hk; simp [setTrack, getTrack]
    · simp [setTrack, getTrack, hk, ih]

/-- C8, counterexample: appending audio for a participant with no open track
does not fail — the code opens a fresh track implicitly and the bytes are
written (so no NotOpenError exists and audio IS written). -/
theorem audio_write_no_notopen_counterexample :
    getTrack ((⟨[]⟩ : AudioWriter).files) 7 = none ∧
    getTrack ((AudioWriter.write ⟨[]⟩ 7 [1, 2, 3]).files) 7 = some [1, 2, 3] := by
  decide

/-- C8 (amended): for every participant with no open track, write implicitly
opens a new track and appends the PCM bytes to it; it never fails. -/
theorem audio_write_autoopen (w : AudioWriter) (uid : Nat) (pcm : List Nat)
    (h : getTrack w.files uid = none) :
    getTrack (w.write uid pcm).files uid = some pcm := by
  unfold AudioWriter.write AudioWriter.start_track
  rw [h]
  simp only [Option.isSome_none, Bool.false_eq_true, if_false]
  rw [getTrack_setTrack_self]
  simp [getTrack_setTrack_self]

/-- C8, witness for `audio_write_autoopen` on a writer holding an unrelated
track. -/
theorem audio_write_autoopen_witness :
    getTrack ((⟨[(3, [9])]⟩ : AudioWriter).files) 7 = none ∧
    getTrack ((AudioWriter.write ⟨[(3, [9])]⟩ 7 [1, 2]).files) 7 = some [1, 2] :=
  ⟨by decide, audio_write_autoopen ⟨[(3, [9])]⟩ 7 [1, 2] (by decide)⟩

/-! ## C9 — AudioWriter.close_all and per-track close errors -/

lemma closeLoop_all_ok (closeErr : Nat → Option String) :
    ∀ fs : List (Nat × List Nat), (∀ uid ∈ fs.map Prod.fst, closeErr uid = none) →
      closeLoop closeErr fs = (fs.map Prod.fst, none) := by
  intro fs
  induction fs with
  | nil => intro _; rfl
  | cons p rest ih =>
    intro h
    obtain ⟨uid, tr⟩ := p
    have huid : closeErr uid = none := h uid (by simp)
    have hrest : ∀ u ∈ rest.map Prod.fst, closeErr u = none := by
      intro u hu
      exact h u (by simp [hu])
    simp [closeLoop, huid, ih hrest]

lemma closeLoop_prefix_error (closeErr : Nat → Option String) (e : String) :
    ∀ (pre : List (Nat × List Nat)) (uid : Nat) (track : List Nat)
      (post : List (Nat × List Nat)),
      (∀ u ∈ pre.map Prod.fst, closeErr u = none) → closeErr uid = some e →
      closeLoop closeErr (pre ++ (uid, track) :: post) = (pre.map Prod.fst, some e) := by
  intro pre
  induction pre with
  | nil =>
    intro uid track post _ he
    simp [closeLoop, he]
  | cons p rest ih =>
    intro uid track post h he
    obtain ⟨k, tr⟩ := p
    have hk : closeErr k = none := h k (by simp)
    have hrest : ∀ u ∈ rest.map Prod.fst, closeErr u = none := by
      intro u hu
      exact h u (by simp [hu])
    simp [closeLoop, hk, ih uid track post hrest he]

/-- C9 (amended): close_all iterates the open files in insertion order; when
every per-track close succeeds, every track is finalized, no error escapes
and the table is cleared. But a per-track close error is NOT swallowed: it
propagates, the tracks after the failing one are not finalized, and the
table is not cleared. -/
theorem close_all_sequential_behavior (w : AudioWriter) (closeErr : Nat → Option String) :
    ((∀ uid ∈ w.files.map Prod.fst, closeErr uid = none) →
      (w.close_all closeErr).finalized = w.files.map Prod.fst ∧
      (w.close_all closeErr).error = none ∧
      (w.close_all closeErr).writer = ⟨[]⟩) ∧
    (∀ (pre post : List (Nat × List Nat)) (uid : Nat) (track : List Nat) (e : String),
      w.files = pre ++ (uid, track) :: post →
      (∀ u ∈ pre.map Prod.fst, closeErr u = none) →
      closeErr uid = some e →
      (w.close_all closeErr).finalized = pre.map Prod.fst ∧
      (w.close_all closeErr).error = some e ∧
      (w.close_all closeErr).writer = w) := by
  constructor
  · intro h
    have hl := closeLoop_all_ok closeErr w.files h
    simp [AudioWriter.close_all, hl]
  · intro pre post uid track e hfs hpre he
    have hl := closeLoop_prefix_error closeErr e pre uid track post hpre he
    simp [AudioWriter.close_all, hfs, hl]

/-- C9, counterexample: with two open tracks and the close of the first
raising, the error propagates (it is not swallowed), the second track is
never finalized, and the file table is left as it was. -/
theorem close_all_error_propagates_counterexample :
    (AudioWriter.close_all ⟨[(1, []), (2, [])]⟩ closeErrW).error = some "disk full" ∧
    (AudioWriter.close_all ⟨[(1, []), (2, [])]⟩ closeErrW).finalized = [] ∧
    (AudioWriter.close_all ⟨[(1, []), (2, [])]⟩ closeErrW).writer = ⟨[(1, []), (2, [])]⟩ := by
  decide

/-- C9, witness for `close_all_sequential_behavior`: all closes succeed on one
writer; on another, the close of track 1 fails after track 3 was finalized. -/
theorem close_all_sequential_behavior_witness :
    (AudioWriter.close_all ⟨[(1, []), (2, [])]⟩ (fun _ => none)).finalized = [1, 2] ∧
    (AudioWriter.close_all ⟨[(1, []), (2, [])]⟩ (fun _ => none)).error = none ∧
    (AudioWriter.close_all ⟨[(1, []), (2, [])]⟩ (fun _ => none)).writer = ⟨[]⟩ ∧
    (AudioWriter.close_all ⟨[(3, []), (1, []), (2, [])]⟩ closeErrW).finalized = [3] ∧
    (AudioWriter.close_all ⟨[(3, []), (1, []), (2, [])]⟩ closeErrW).error = some "disk full" ∧
    (AudioWriter.close_all ⟨[(3, []), (1, []), (2, [])]⟩ closeErrW).writer =
      ⟨[(3, []), (1, []), (2, [])]⟩ := by
  have h1 := (close_all_sequential_behavior ⟨[(1, []), (2, [])]⟩ (fun _ => none)).1
    (by decide)
  have h2 := (close_all_sequential_behavior ⟨[(3, []), (1, []), (2, [])]⟩ closeErrW).2
    [(3, [])] [(2, [])] 1 [] "disk full" rfl (by decide) (by decide)
  exact ⟨h1.1, h1.2.1, h1.2.2, h2.1, h2.2.1, h2.2.2⟩

/-! ## C10 — the 200000-character cap on the transcript_text response field -/

lemma mk_length (l : List Char) : (String.mk l).length = l.length := rfl

lemma mk_append (a b : List Char) : String.mk a ++ String.mk b = String.mk (a ++ b) := rfl

/-- C10: on every successful transcription, the transcript_text field of the
response is exactly the first 200000 characters of the derived plain-text
transcript — its length never exceeds 200000 and appending the dropped
remainder recovers the full transcript — while the transcript.txt artifact
receives the full text. -/
theorem transcribe_response_truncation (env : TranscriberEnv) (sid : String)
    (segs : List Segment)
    (hvalid : validSessionId sid = true) (hdir : env.dirExists = true)
    (hwavs : env.wavs.isEmpty = false) (hmerge : env.mergeResult = .ok ())
    (hwx : env.whisperxResult = .ok ()) (hjson : env.asrJson = .ok segs) :
    transcribe env sid =
      Except.ok { session_id := sid
                  transcript_text := pyTake (extract_plain_text segs) 200000
                  transcriptTxtFile := extract_plain_text segs } ∧
    (pyTake (extract_plain_text segs) 200000).length ≤ 200000 ∧
    pyTake (extract_plain_text segs) 200000 ++
        String.mk ((extract_plain_text segs).data.drop 200000) =
      extract_plain_text segs := by
  refine ⟨?_, ?_, ?_⟩
  · simp [transcribe, hvalid, hdir, hwavs, hmerge, hwx, hjson]
  · rw [pyTake, mk_length, List.length_take]
    exact Nat.min_le_left _ _
  · rw [pyTake, mk_append, List.take_append_drop, mk_data]

/-- C10, witness for `transcribe_response_truncation` on a healthy
environment with one segment. -/
theorem transcribe_response_truncation_witness :
    validSessionId "20240115_093000" = true ∧
    envW.asrJson = Except.ok [{ speaker := some "A", text := some " hello " }] ∧
    (transcribe envW "20240115_093000" =
      Except.ok { session_id := "20240115_093000"
                  transcript_text :=
                    pyTake (extract_plain_text [{ speaker := some "A", text := some " hello " }])
                      200000
                  transcriptTxtFile :=
                    extract_plain_text [{ speaker := some "A", text := some " hello " }] } ∧
     (pyTake (extract_plain_text [{ speaker := some "A", text := some " hello " }])
        200000).length ≤ 200000 ∧
     pyTake (extract_plain_text [{ speaker := some "A", text := some " hello " }]) 200000 ++
         String.mk ((extract_plain_text
            [{ speaker := some "A", text := some " hello " }]).data.drop 200000) =
       extract_plain_text [{ speaker := some "A", text := some " hello " }]) := by
  refine ⟨by decide, rfl, ?_⟩
  exact transcribe_response_truncation envW "20240115_093000"
    [{ speaker := some "A", text := some " hello " }]
    (by decide) rfl rfl rfl rfl rfl

end Craig
